import Mathlib

/-!
Shallow embedding of the SupaPanel domain-routing subsystem.

Source files embedded here:
- src/src/lib/traefik.ts (Traefik config generator, DNS verifier, port reader)
- src/unnamed/part_005 (PUT and DELETE handlers of /api/projects/[id]/domain)
- src/src/app/api/projects/[id]/status/route.ts, second document
  (PUT handler of /api/settings/panel-domain)

JavaScript machine-level conventions used throughout:
- a JS string value that may be `undefined` is an `Option String`; `none` is
  `undefined`, `some ""` is the (falsy) empty string;
- JS string truthiness (`if (s)`) is the test for a non-empty present string;
- a JS number that may be NaN (result of parseInt on garbage) is an
  `Option Int`, with `none` playing NaN;
- the filesystem is an association list from paths to file contents, and the
  async fs calls become explicit state passing.
-/

namespace SupaPanel

/-! ## Character classes of the domain regex -/

/-- ASCII letter, the regex class [a-zA-Z]. -/
def isAsciiLetter (c : Char) : Bool :=
  ('a' ≤ c && c ≤ 'z') || ('A' ≤ c && c ≤ 'Z')

/-- ASCII digit, the regex class [0-9]. -/
def isAsciiDigit (c : Char) : Bool :=
  '0' ≤ c && c ≤ '9'

/-- ASCII alphanumeric, the regex class [a-zA-Z0-9]. -/
def isAsciiAlnum (c : Char) : Bool :=
  isAsciiLetter c || isAsciiDigit c

/-- Interior character class [a-zA-Z0-9-_.] of the domain regex. -/
def isDomainInteriorChar (c : Char) : Bool :=
  isAsciiAlnum c || c == '-' || c == '_' || c == '.'

/-- The terminal label [a-zA-Z]\x7b2,\x7d$ of the regex: two or more ASCII
letters running to the end of the string. -/
def isTldRun (l : List Char) : Bool :=
  decide (2 ≤ l.length) && l.all isAsciiLetter

/-- Backtracking match of the regex tail [a-zA-Z0-9-_.]*\.[a-zA-Z]\x7b2,\x7d$:
at each position either the literal dot starts here and the rest is the
terminal letter run, or the character is consumed by the interior star. This
is exactly the exists-a-split semantics of the regex engine. -/
def matchesDomainTail : List Char → Bool
  | [] => false
  | c :: rest =>
      (c == '.' && isTldRun rest) || (isDomainInteriorChar c && matchesDomainTail rest)

/-- The anchored test of the literal
/^[a-zA-Z0-9][a-zA-Z0-9-_.]*\.[a-zA-Z]\x7b2,\x7d$/ appearing verbatim in the
project-domain PUT handler (part_005 line 80) and in the panel-domain PUT
handler (status/route.ts document 2, line 201 of the composite file). -/
def domainRegexTest (s : String) : Bool :=
  match s.data with
  | [] => false
  | c :: rest => isAsciiAlnum c && matchesDomainTail rest

/-! ## JS parseInt and string truthiness helpers -/

/-- Digits-to-value accumulator for a run of ASCII digits. -/
def digitsToNat (l : List Char) : Nat :=
  l.foldl (fun acc c => acc * 10 + (c.toNat - 48)) 0

/-- Model of JavaScript parseInt(s, 10): skip leading whitespace, take an
optional sign, then the longest leading run of decimal digits; NaN (here
`none`) when that run is empty. -/
def jsParseInt (s : String) : Option Int :=
  let l := s.data.dropWhile (fun c => c == ' ' || c == '\t' || c == '\n' || c == '\r')
  match l with
  | '-' :: rest =>
      let d := rest.takeWhile isAsciiDigit
      if d.isEmpty then none else some (-(digitsToNat d : Int))
  | '+' :: rest =>
      let d := rest.takeWhile isAsciiDigit
      if d.isEmpty then none else some ((digitsToNat d : Int))
  | _ =>
      let d := l.takeWhile isAsciiDigit
      if d.isEmpty then none else some ((digitsToNat d : Int))

/-- JS truthiness of a possibly-undefined string: present and non-empty. -/
def jsTruthyStr (v : Option String) : Bool :=
  match v with
  | some s => s ≠ ""
  | none => false

/-- JS `a || b` on a possibly-undefined string `a` and default string `b`:
the default is taken exactly when `a` is undefined or empty. -/
def jsOrDefault (v : Option String) (d : String) : String :=
  match v with
  | some s => if s = "" then d else s
  | none => d

/-- JS `a || b` where both operands are possibly-null strings, as in
`domain || updatedProject.domain` in the PUT handler. -/
def jsOrOpt (a b : Option String) : Option String :=
  match a with
  | some s => if s = "" then b else some s
  | none => b

/-! ## Environment variables and getProjectPorts (traefik.ts 168-173) -/

/-- Lookup in the envVarsMap built by the PUT handler from a project's EnvVar
rows; `none` is an absent key (JS undefined). -/
def lookupEnv (envVars : List (String × String)) (key : String) : Option String :=
  (envVars.find? (fun e => e.1 = key)).map (fun e => e.2)

/-- Result struct of getProjectPorts; each port is a JS number, NaN as none. -/
structure Ports where
  kongPort : Option Int
  studioPort : Option Int
deriving Repr, DecidableEq

/-- Embedding of getProjectPorts (traefik.ts lines 168-173):
parseInt(envVars.KONG_HTTP_PORT || '8000', 10) and
parseInt(envVars.STUDIO_PORT || '3000', 10). -/
def getProjectPorts (envVars : List (String × String)) : Ports :=
  { kongPort := jsParseInt (jsOrDefault (lookupEnv envVars "KONG_HTTP_PORT") "8000"),
    studioPort := jsParseInt (jsOrDefault (lookupEnv envVars "STUDIO_PORT") "3000") }

/-! ## DNS model and verifyDomainDNS (traefik.ts 179-191) -/

/-- External DNS world: for each name either no resolvable entry at all
(NXDOMAIN / timeout / malformed name, `none`) or a pair of its IPv4 A records
and its IPv6 AAAA records. -/
structure DnsState where
  records : String → Option (List String × List String)

/-- Node dns.promises.resolve4: yields the A records of the name; rejects
(`Except.error`) when the name does not resolve at all or when it has no A
records (ENODATA). Only A records are ever consulted. -/
def resolve4 (dns : DnsState) (domain : String) : Except Unit (List String) :=
  match dns.records domain with
  | none => Except.error ()
  | some (a, _) => if a.isEmpty then Except.error () else Except.ok a

/-- Embedding of verifyDomainDNS (traefik.ts lines 179-191): try resolve4 and
return addresses.length > 0, with the catch-all turning every rejection into
false. Total by construction, mirroring that the catch swallows every
exception. -/
def verifyDomainDNS (dns : DnsState) (domain : String) : Bool :=
  match resolve4 dns domain with
  | Except.ok addresses => decide (0 < addresses.length)
  | Except.error _ => false

/-! ## Traefik document structure (traefik.ts 30-118, 196-245)

The source builds the YAML text by conditional template-string appends; each
append of one router block or one service block becomes one list element
here, with the interpolated values carried in the fields. -/

/-- One router block of the generated YAML. -/
structure TraefikRouter where
  name : String
  hostRule : String
  entryPoint : String
  service : String
  middlewares : List String
  tlsCertResolver : Option String
  priority : Nat
deriving Repr, DecidableEq

/-- One service block of the generated YAML; `hasHealthCheck` records the
optional healthCheck stanza that only the API service carries. -/
structure TraefikService where
  name : String
  serverUrl : String
  hasHealthCheck : Bool
deriving Repr, DecidableEq

/-- The whole http section of one generated file: routers, the single shared
https-redirect middleware, services. -/
structure TraefikDocument where
  routers : List TraefikRouter
  middlewares : List String
  services : List TraefikService
deriving Repr, DecidableEq

/-- Rendering of a JS number into a URL, NaN printing as the string NaN. -/
def jsNumToString (n : Option Int) : String :=
  match n with
  | some v => toString v
  | none => "NaN"

/-- Input struct TraefikConfig of generateProjectTraefikConfig; domain is a
plain string (empty when absent), studioDomain an optional string. -/
structure TraefikConfigInput where
  projectSlug : String
  domain : String
  studioDomain : Option String
  kongPort : Option Int
  studioPort : Option Int
deriving Repr, DecidableEq

/-- Pure core of generateProjectTraefikConfig (traefik.ts lines 30-118): the
API block is emitted when `domain` is truthy, the Studio block when
`studioDomain` is truthy, in that order, then the shared middleware. -/
def generateProjectTraefikDocument (cfg : TraefikConfigInput) : TraefikDocument :=
  let slug := cfg.projectSlug
  let apiRouters : List TraefikRouter :=
    if cfg.domain ≠ "" then
      [ { name := slug ++ "-api", hostRule := cfg.domain, entryPoint := "websecure",
          service := slug ++ "-api", middlewares := [],
          tlsCertResolver := some "letsencrypt", priority := 10 },
        { name := slug ++ "-api-http", hostRule := cfg.domain, entryPoint := "web",
          service := slug ++ "-api", middlewares := ["https-redirect"],
          tlsCertResolver := none, priority := 5 } ]
    else []
  let apiServices : List TraefikService :=
    if cfg.domain ≠ "" then
      [ { name := slug ++ "-api",
          serverUrl := "http://" ++ slug ++ "-kong:" ++ jsNumToString cfg.kongPort,
          hasHealthCheck := true } ]
    else []
  let studioRouters : List TraefikRouter :=
    if jsTruthyStr cfg.studioDomain then
      [ { name := slug ++ "-studio", hostRule := jsOrDefault cfg.studioDomain "",
          entryPoint := "websecure", service := slug ++ "-studio", middlewares := [],
          tlsCertResolver := some "letsencrypt", priority := 10 },
        { name := slug ++ "-studio-http", hostRule := jsOrDefault cfg.studioDomain "",
          entryPoint := "web", service := slug ++ "-studio",
          middlewares := ["https-redirect"], tlsCertResolver := none, priority := 5 } ]
    else []
  let studioServices : List TraefikService :=
    if jsTruthyStr cfg.studioDomain then
      [ { name := slug ++ "-studio",
          serverUrl := "http://" ++ slug ++ "-studio:" ++ jsNumToString cfg.studioPort,
          hasHealthCheck := false } ]
    else []
  { routers := apiRouters ++ studioRouters,
    middlewares := ["https-redirect"],
    services := apiServices ++ studioServices }

/-- Document written by generatePanelTraefikConfig (traefik.ts 196-245). -/
def generatePanelTraefikDocument (domain : String) : TraefikDocument :=
  { routers :=
      [ { name := "supapanel", hostRule := domain, entryPoint := "websecure",
          service := "supapanel", middlewares := [],
          tlsCertResolver := some "letsencrypt", priority := 100 },
        { name := "supapanel-http", hostRule := domain, entryPoint := "web",
          service := "supapanel", middlewares := ["https-redirect"],
          tlsCertResolver := none, priority := 50 } ],
    middlewares := ["https-redirect"],
    services :=
      [ { name := "supapanel", serverUrl := "http://supapanel-panel:3000",
          hasHealthCheck := false } ] }

/-! ## Filesystem model -/

/-- Content of one file in the dynamic-config directory: either a generated
routing document or a comment-only text (the panel placeholder). -/
inductive FileContent where
  | document (doc : TraefikDocument)
  | commentOnly (text : String)
deriving Repr, DecidableEq

/-- The dynamic-config directory as an association list path -> content. -/
def FileSystem := List (String × FileContent)

instance : DecidableEq FileSystem := by
  unfold FileSystem
  infer_instance

/-- Read a file; none when the path does not exist. -/
def fsRead (fs : FileSystem) (p : String) : Option FileContent :=
  (List.find? (fun e => e.1 = p) fs).map (fun e => e.2)

/-- fs.writeFile: create or overwrite. -/
def fsWrite (fs : FileSystem) (p : String) (c : FileContent) : FileSystem :=
  (p, c) :: List.filter (fun e => e.1 ≠ p) fs

/-- fs.unlink with the ENOENT swallow of the source: removing a missing path
leaves the filesystem unchanged instead of failing. -/
def fsUnlink (fs : FileSystem) (p : String) : FileSystem :=
  List.filter (fun e => e.1 ≠ p) fs

/-- path.join(getTraefikDynamicPath(), slug + ".yml"), with the dynamic
directory abstracted as a parameter. -/
def traefikConfigPath (dynDir slug : String) : String :=
  dynDir ++ "/" ++ slug ++ ".yml"

/-- Effectful shell of generateProjectTraefikConfig: write the rendered
document to the per-slug path, overwriting unconditionally. -/
def generateProjectTraefikConfigFS (dynDir : String) (cfg : TraefikConfigInput)
    (fs : FileSystem) : FileSystem :=
  fsWrite fs (traefikConfigPath dynDir cfg.projectSlug)
    (FileContent.document (generateProjectTraefikDocument cfg))

/-- Embedding of removeProjectTraefikConfig (traefik.ts lines 151-163):
fs.unlink of the per-slug path, ENOENT tolerated. -/
def removeProjectTraefikConfig (dynDir slug : String) (fs : FileSystem) : FileSystem :=
  fsUnlink fs (traefikConfigPath dynDir slug)

/-- Effectful shell of generatePanelTraefikConfig: write panel.yml. -/
def generatePanelTraefikConfigFS (dynDir domain : String) (fs : FileSystem) : FileSystem :=
  fsWrite fs (dynDir ++ "/panel.yml")
    (FileContent.document (generatePanelTraefikDocument domain))

/-- Embedding of removePanelTraefikConfig (traefik.ts lines 250-265): the
panel file is not unlinked but overwritten with a comment-only document. -/
def removePanelTraefikConfig (dynDir : String) (fs : FileSystem) : FileSystem :=
  fsWrite fs (dynDir ++ "/panel.yml")
    (FileContent.commentOnly
      "# SupaPanel Panel Routing\n# No custom domain configured - access via IP:3000\n")

/-! ## Project records and the domain route handlers (part_005) -/

/-- The columns of the Project row that the domain routes touch, plus the
included EnvVar rows. Nullable text columns are Option String. -/
structure Project where
  id : String
  slug : String
  domain : Option String
  domainVerified : Bool
  studioDomain : Option String
  studioDomainVerified : Bool
  envVars : List (String × String)
deriving Repr, DecidableEq

/-- The database as the list of project rows. -/
def ProjectDb := List Project

instance : DecidableEq ProjectDb := by
  unfold ProjectDb
  infer_instance

/-- Outcome of the PUT /api/projects/[id]/domain handler, after session
validation. Each constructor is one distinct JSON response of the source:
formatError and missingDomains are 400, notFound 404, conflict 409, success
200 with the returned record fields and the composite message. -/
inductive PutResult where
  | formatError (message : String)
  | missingDomains
  | notFound
  | conflict (message : String)
  | success (domain : Option String) (verified : Bool)
      (studioDomain : Option String) (studioVerified : Bool) (message : String)
deriving Repr, DecidableEq

/-- Composite response message of the PUT handler (part_005 lines 174-193). -/
def putMessage (domain studioDomain : Option String)
    (apiDnsValid studioDnsValid : Bool) : String :=
  let messages : List String :=
    (if jsTruthyStr domain then
      [if apiDnsValid then "API domain verified" else "API domain configured (DNS pending)"]
     else []) ++
    (if jsTruthyStr studioDomain then
      [if studioDnsValid then "Studio domain verified"
       else "Studio domain configured (DNS pending)"]
     else [])
  let joined := String.intercalate ". " messages
  if joined = "" then "Domains updated successfully" else joined

/-- Embedding of the PUT /api/projects/[id]/domain handler (part_005 lines
60-199), from the point after session validation. The request body fields
`domain` and `studioDomain` are possibly-undefined strings; the handler
returns its response together with the final database and filesystem. -/
def putProjectDomain (dns : DnsState) (dynDir : String) (db : ProjectDb)
    (fs : FileSystem) (id : String) (domain studioDomain : Option String) :
    PutResult × ProjectDb × FileSystem :=
  if jsTruthyStr domain && !domainRegexTest (jsOrDefault domain "") then
    (PutResult.formatError "Invalid API domain format", db, fs)
  else if jsTruthyStr studioDomain && !domainRegexTest (jsOrDefault studioDomain "") then
    (PutResult.formatError "Invalid Studio domain format", db, fs)
  else if !jsTruthyStr domain && !jsTruthyStr studioDomain then
    (PutResult.missingDomains, db, fs)
  else
    match List.find? (fun p => p.id = id) db with
    | none => (PutResult.notFound, db, fs)
    | some project =>
      if jsTruthyStr domain &&
          (List.find? (fun p => p.domain = some (jsOrDefault domain "") && p.id ≠ id) db).isSome then
        (PutResult.conflict "API domain is already in use", db, fs)
      else if jsTruthyStr studioDomain &&
          (List.find? (fun p => p.studioDomain = some (jsOrDefault studioDomain "") && p.id ≠ id) db).isSome then
        (PutResult.conflict "Studio domain is already in use", db, fs)
      else
        let apiDnsValid :=
          if jsTruthyStr domain then verifyDomainDNS dns (jsOrDefault domain "") else false
        let studioDnsValid :=
          if jsTruthyStr studioDomain then verifyDomainDNS dns (jsOrDefault studioDomain "") else false
        let p1 :=
          match domain with
          | none => project
          | some d =>
              { project with
                domain := if d = "" then none else some d,
                domainVerified := if d = "" then false else apiDnsValid }
        let updatedProject :=
          match studioDomain with
          | none => p1
          | some d =>
              { p1 with
                studioDomain := if d = "" then none else some d,
                studioDomainVerified := if d = "" then false else studioDnsValid }
        let db2 : ProjectDb := List.map (fun p => if p.id = id then updatedProject else p) db
        let ports := getProjectPorts project.envVars
        let finalDomain := jsOrOpt domain updatedProject.domain
        let finalStudioDomain := jsOrOpt studioDomain updatedProject.studioDomain
        let fs2 :=
          if jsTruthyStr finalDomain || jsTruthyStr finalStudioDomain then
            generateProjectTraefikConfigFS dynDir
              { projectSlug := project.slug,
                domain := jsOrDefault finalDomain "",
                studioDomain := some (jsOrDefault finalStudioDomain ""),
                kongPort := ports.kongPort,
                studioPort := ports.studioPort } fs
          else fs
        (PutResult.success updatedProject.domain updatedProject.domainVerified
          updatedProject.studioDomain updatedProject.studioDomainVerified
          (putMessage domain studioDomain apiDnsValid studioDnsValid), db2, fs2)

/-- Outcome of the DELETE /api/projects/[id]/domain handler. -/
inductive DeleteResult where
  | notFound
  | success (message : String)
deriving Repr, DecidableEq

/-- Embedding of the DELETE /api/projects/[id]/domain handler (part_005
lines 205-254), after session validation: clear the four domain columns,
then call removeProjectTraefikConfig on the slug. -/
def deleteProjectDomain (dynDir : String) (db : ProjectDb) (fs : FileSystem)
    (id : String) : DeleteResult × ProjectDb × FileSystem :=
  match List.find? (fun p => p.id = id) db with
  | none => (DeleteResult.notFound, db, fs)
  | some project =>
    let db2 : ProjectDb := List.map
      (fun p =>
        if p.id = id then
          { p with
            domain := none
            domainVerified := false
            studioDomain := none
            studioDomainVerified := false }
        else p) db
    let fs2 := removeProjectTraefikConfig dynDir project.slug fs
    (DeleteResult.success "Domains removed successfully", db2, fs2)

/-! ## Panel-domain PUT handler (status/route.ts composite, document 2) -/

/-- The PanelSettings table as a key-value list. -/
def PanelSettings := List (String × String)

instance : DecidableEq PanelSettings := by
  unfold PanelSettings
  infer_instance

/-- Prisma upsert on the single-row-per-key PanelSettings table. -/
def upsertSetting (settings : PanelSettings) (key value : String) : PanelSettings :=
  (key, value) :: List.filter (fun e => e.1 ≠ key) settings

/-- Outcome of the PUT /api/settings/panel-domain handler. -/
inductive PanelPutResult where
  | missingDomain
  | formatError (message : String)
  | success (domain : String) (verified : Bool)
deriving Repr, DecidableEq

/-- Embedding of the PUT /api/settings/panel-domain handler (lines 181-238 of
the second document in status/route.ts), after session validation: required
check, the same domainRegexTest, DNS verification, two upserts, panel render. -/
def putPanelDomain (dns : DnsState) (dynDir : String) (settings : PanelSettings)
    (fs : FileSystem) (domain : Option String) :
    PanelPutResult × PanelSettings × FileSystem :=
  if !jsTruthyStr domain then
    (PanelPutResult.missingDomain, settings, fs)
  else if !domainRegexTest (jsOrDefault domain "") then
    (PanelPutResult.formatError "Invalid domain format", settings, fs)
  else
    let d := jsOrDefault domain ""
    let dnsValid := verifyDomainDNS dns d
    let s1 := upsertSetting settings "panel_domain" d
    let s2 := upsertSetting s1 "panel_domain_verified" (if dnsValid then "true" else "false")
    let fs2 := generatePanelTraefikConfigFS dynDir d fs
    (PanelPutResult.success d dnsValid, s2, fs2)

/-! ## Test fixtures used by witnesses and counterexamples -/

/-- AAAA-only test fixture for the C10 witness. -/
def dnsV6Only : DnsState :=
  ⟨fun d => if d = "v6.example" then some ([], ["::1"]) else none⟩

/-- Fixture DNS state in which no name resolves. -/
def dnsNone : DnsState := ⟨fun _ => none⟩

/-- Fixture project holding both an API domain and a Studio domain. -/
def projA : Project :=
  { id := "a", slug := "proja", domain := some "api.a.test", domainVerified := true,
    studioDomain := some "shared.test", studioDomainVerified := true, envVars := [] }

/-- Fixture project with no domains configured. -/
def projB : Project :=
  { id := "b", slug := "projb", domain := none, domainVerified := false,
    studioDomain := none, studioDomainVerified := false, envVars := [] }

/-! ## Helper lemmas -/

/-- Finding a key in a list filtered on a different key is finding it in the
original list. -/
theorem find?_filter_ne_key (l : List (String × FileContent)) (p q : String)
    (hq : q ≠ p) :
    List.find? (fun e => e.1 = q) (List.filter (fun e => e.1 ≠ p) l)
      = List.find? (fun e => e.1 = q) l := by
  induction l with
  | nil => rfl
  | cons e rest ih =>
      rw [List.filter_cons]
      by_cases hep : e.1 = p
      · have heq : ¬(e.1 = q) := by
          rw [hep]
          exact fun hh => hq hh.symm
        rw [if_neg (by simp [hep])]
        rw [List.find?_cons_of_neg _ (by simp [heq])]
        exact ih
      · rw [if_pos (by simp [hep])]
        by_cases heq : e.1 = q
        · rw [List.find?_cons_of_pos _ (by simp [heq]),
            List.find?_cons_of_pos _ (by simp [heq])]
        · rw [List.find?_cons_of_neg _ (by simp [heq]),
            List.find?_cons_of_neg _ (by simp [heq])]
          exact ih

/-- Reading through a write: the written path holds the new content, every
other path is untouched. -/
theorem fsRead_fsWrite (fs : FileSystem) (p : String) (c : FileContent) (q : String) :
    fsRead (fsWrite fs p c) q = if q = p then some c else fsRead fs q := by
  unfold fsRead fsWrite
  by_cases h : q = p
  · subst h
    rw [if_pos rfl]
    rw [List.find?_cons_of_pos _ (by simp)]
    rfl
  · rw [if_neg h]
    have hpq : ¬(p = q) := fun hh => h hh.symm
    rw [List.find?_cons_of_neg _ (by simp [hpq])]
    rw [find?_filter_ne_key fs p q h]

/-- Reading through an unlink: the removed path is gone, every other path is
untouched. -/
theorem fsRead_fsUnlink (fs : FileSystem) (p q : String) :
    fsRead (fsUnlink fs p) q = if q = p then none else fsRead fs q := by
  unfold fsRead fsUnlink
  by_cases h : q = p
  · subst h
    rw [if_pos rfl]
    have : List.find? (fun e => e.1 = q) (List.filter (fun e => e.1 ≠ q) fs) = none := by
      rw [List.find?_eq_none]
      intro a ha
      have := (List.mem_filter.mp ha).2
      simpa using this
    rw [this]
    rfl
  · rw [if_neg h]
    rw [find?_filter_ne_key fs p q h]

/-- A string matching the domain regex is non-empty. -/
theorem domainRegexTest_ne_empty {d : String} (h : domainRegexTest d = true) : d ≠ "" := by
  intro he
  subst he
  exact absurd h (by decide)

/-! ## Claim theorems -/

/-- C4: rendering with both an API domain and a Studio domain produces exactly
four routers (per domain one websecure router with tls certResolver
letsencrypt at priority 10 and one web router with the https-redirect
middleware at priority 5) and exactly two service declarations; rendering with
the API domain alone produces only the two API routers (HTTPS with
letsencrypt, HTTP redirect) and the single API service, with no Studio router
and no Studio service. -/
theorem claim_C4_render_shape (slug api studio : String) (kp sp : Option Int)
    (hapi : api ≠ "") (hstudio : studio ≠ "") :
    (generateProjectTraefikDocument
        { projectSlug := slug, domain := api, studioDomain := some studio,
          kongPort := kp, studioPort := sp }).routers =
      [ ⟨slug ++ "-api", api, "websecure", slug ++ "-api", [], some "letsencrypt", 10⟩,
        ⟨slug ++ "-api-http", api, "web", slug ++ "-api", ["https-redirect"], none, 5⟩,
        ⟨slug ++ "-studio", studio, "websecure", slug ++ "-studio", [], some "letsencrypt", 10⟩,
        ⟨slug ++ "-studio-http", studio, "web", slug ++ "-studio", ["https-redirect"], none, 5⟩ ] ∧
    (generateProjectTraefikDocument
        { projectSlug := slug, domain := api, studioDomain := some studio,
          kongPort := kp, studioPort := sp }).services =
      [ ⟨slug ++ "-api", "http://" ++ slug ++ "-kong:" ++ jsNumToString kp, true⟩,
        ⟨slug ++ "-studio", "http://" ++ slug ++ "-studio:" ++ jsNumToString sp, false⟩ ] ∧
    (∀ sd : Option String, jsTruthyStr sd = false →
      (generateProjectTraefikDocument
          { projectSlug := slug, domain := api, studioDomain := sd,
            kongPort := kp, studioPort := sp }).routers =
        [ ⟨slug ++ "-api", api, "websecure", slug ++ "-api", [], some "letsencrypt", 10⟩,
          ⟨slug ++ "-api-http", api, "web", slug ++ "-api", ["https-redirect"], none, 5⟩ ] ∧
      (generateProjectTraefikDocument
          { projectSlug := slug, domain := api, studioDomain := sd,
            kongPort := kp, studioPort := sp }).services =
        [ ⟨slug ++ "-api", "http://" ++ slug ++ "-kong:" ++ jsNumToString kp, true⟩ ]) := by
  refine ⟨?_, ?_, ?_⟩
  · simp [generateProjectTraefikDocument, jsTruthyStr, jsOrDefault, hapi, hstudio]
  · simp [generateProjectTraefikDocument, jsTruthyStr, jsOrDefault, hapi, hstudio]
  · intro sd hsd
    constructor
    · simp [generateProjectTraefikDocument, hapi, hsd]
    · simp [generateProjectTraefikDocument, hapi, hsd]

/-- Witness for C4 at the demo project with both domains set and, in the third
conjunct, with the Studio domain absent. -/
theorem claim_C4_render_shape_witness :
    (generateProjectTraefikDocument
        { projectSlug := "demo", domain := "api.demo.test",
          studioDomain := some "studio.demo.test", kongPort := some 8000,
          studioPort := some 3000 }).routers.length = 4 ∧
    (generateProjectTraefikDocument
        { projectSlug := "demo", domain := "api.demo.test",
          studioDomain := some "studio.demo.test", kongPort := some 8000,
          studioPort := some 3000 }).services.length = 2 ∧
    (generateProjectTraefikDocument
        { projectSlug := "demo", domain := "api.demo.test", studioDomain := none,
          kongPort := some 8000, studioPort := some 3000 }).routers.length = 2 := by
  have h := claim_C4_render_shape "demo" "api.demo.test" "studio.demo.test"
    (some 8000) (some 3000) (by decide) (by decide)
  refine ⟨?_, ?_, ?_⟩
  · rw [h.1]
    rfl
  · rw [h.2.1]
    rfl
  · rw [(h.2.2 none rfl).1]
    rfl

/-- C5: the DNS verifier returns true exactly when resolution of the name
yields at least one IPv4 address record; every failure (no resolvable entry,
or an entry with no A records) gives false, and the function is total, so no
exception ever reaches the caller. -/
theorem claim_C5_dns_verifier (dns : DnsState) (domain : String) :
    verifyDomainDNS dns domain = true ↔
      ∃ a aaaa, dns.records domain = some (a, aaaa) ∧ a ≠ [] := by
  unfold verifyDomainDNS resolve4
  cases hrec : dns.records domain with
  | none => simp
  | some pr =>
      obtain ⟨a, aaaa⟩ := pr
      by_cases ha : a.isEmpty
      · rw [List.isEmpty_iff] at ha
        subst ha
        simp
      · rw [List.isEmpty_iff] at ha
        simp only [List.isEmpty_eq_true, if_neg ha]
        simp [List.length_pos, ha]

/-- C8: the port allocator parses KONG_HTTP_PORT and STUDIO_PORT from the
environment map, with missing keys falling back to 8000 and 3000, and in
particular maps KONG_HTTP_PORT=8080 with no STUDIO_PORT to ports 8080/3000. -/
theorem claim_C8_port_defaults (envVars : List (String × String)) :
    (lookupEnv envVars "KONG_HTTP_PORT" = none →
      (getProjectPorts envVars).kongPort = some 8000) ∧
    (lookupEnv envVars "STUDIO_PORT" = none →
      (getProjectPorts envVars).studioPort = some 3000) ∧
    getProjectPorts [("KONG_HTTP_PORT", "8080")] = ⟨some 8080, some 3000⟩ := by
  refine ⟨?_, ?_, by decide⟩
  · intro h
    have : jsOrDefault (lookupEnv envVars "KONG_HTTP_PORT") "8000" = "8000" := by
      rw [h]
      rfl
    simp only [getProjectPorts, this]
    decide
  · intro h
    have : jsOrDefault (lookupEnv envVars "STUDIO_PORT") "3000" = "3000" := by
      rw [h]
      rfl
    simp only [getProjectPorts, this]
    decide

/-- Witness for C8 with empty environment and the concrete 8080 map. -/
theorem claim_C8_port_defaults_witness :
    (getProjectPorts []).kongPort = some 8000 ∧
    (getProjectPorts []).studioPort = some 3000 ∧
    getProjectPorts [("KONG_HTTP_PORT", "8080")] = ⟨some 8080, some 3000⟩ :=
  ⟨(claim_C8_port_defaults []).1 rfl, (claim_C8_port_defaults []).2.1 rfl,
    (claim_C8_port_defaults []).2.2⟩

/-- C9: the 8000/3000 fallbacks fire exactly when the key is absent or holds
the empty string; a present non-empty value is fed to parseInt unchanged, so a
non-numeric value such as abc yields NaN (modelled as none), not the default. -/
theorem claim_C9_port_fallback_exactness (envVars : List (String × String)) (s : String) :
    ((lookupEnv envVars "KONG_HTTP_PORT" = none ∨
        lookupEnv envVars "KONG_HTTP_PORT" = some "") →
      (getProjectPorts envVars).kongPort = some 8000) ∧
    ((lookupEnv envVars "STUDIO_PORT" = none ∨
        lookupEnv envVars "STUDIO_PORT" = some "") →
      (getProjectPorts envVars).studioPort = some 3000) ∧
    (lookupEnv envVars "KONG_HTTP_PORT" = some s → s ≠ "" →
      (getProjectPorts envVars).kongPort = jsParseInt s) ∧
    (lookupEnv envVars "STUDIO_PORT" = some s → s ≠ "" →
      (getProjectPorts envVars).studioPort = jsParseInt s) ∧
    jsParseInt "abc" = none ∧
    getProjectPorts [("KONG_HTTP_PORT", "abc")] = ⟨none, some 3000⟩ := by
  refine ⟨?_, ?_, ?_, ?_, by decide, by decide⟩
  · intro h
    have : jsOrDefault (lookupEnv envVars "KONG_HTTP_PORT") "8000" = "8000" := by
      rcases h with h | h <;> simp [jsOrDefault, h]
    simp only [getProjectPorts, this]
    decide
  · intro h
    have : jsOrDefault (lookupEnv envVars "STUDIO_PORT") "3000" = "3000" := by
      rcases h with h | h <;> simp [jsOrDefault, h]
    simp only [getProjectPorts, this]
    decide
  · intro h hs
    have : jsOrDefault (lookupEnv envVars "KONG_HTTP_PORT") "8000" = s := by
      simp [jsOrDefault, h, hs]
    simp only [getProjectPorts, this]
  · intro h hs
    have : jsOrDefault (lookupEnv envVars "STUDIO_PORT") "3000" = s := by
      simp [jsOrDefault, h, hs]
    simp only [getProjectPorts, this]

/-- Witness for C9: empty-string values take the defaults, abc gives NaN. -/
theorem claim_C9_port_fallback_exactness_witness :
    (getProjectPorts [("KONG_HTTP_PORT", ""), ("STUDIO_PORT", "")]).kongPort = some 8000 ∧
    (getProjectPorts [("KONG_HTTP_PORT", ""), ("STUDIO_PORT", "")]).studioPort = some 3000 ∧
    (getProjectPorts [("KONG_HTTP_PORT", "9999")]).kongPort = jsParseInt "9999" ∧
    getProjectPorts [("KONG_HTTP_PORT", "abc")] = ⟨none, some 3000⟩ := by
  have h := claim_C9_port_fallback_exactness [("KONG_HTTP_PORT", ""), ("STUDIO_PORT", "")] ""
  have h2 := claim_C9_port_fallback_exactness [("KONG_HTTP_PORT", "9999")] "9999"
  exact ⟨h.1 (Or.inr rfl), h.2.1 (Or.inr rfl),
    h2.2.2.1 rfl (by decide), h2.2.2.2.2.2⟩

/-- C10: the verifier consults only the IPv4 A records: a name whose record
set is AAAA-only (empty A list) verifies false, and the outcome depends only
on the A-record projection of the DNS state. -/
theorem claim_C10_ipv4_only (dns dns2 : DnsState) (domain : String) (aaaa : List String) :
    (dns.records domain = some ([], aaaa) → verifyDomainDNS dns domain = false) ∧
    (Option.map Prod.fst (dns.records domain) = Option.map Prod.fst (dns2.records domain) →
      verifyDomainDNS dns domain = verifyDomainDNS dns2 domain) := by
  constructor
  · intro h
    unfold verifyDomainDNS resolve4
    rw [h]
    rfl
  · intro h
    unfold verifyDomainDNS resolve4
    cases h1 : dns.records domain with
    | none =>
        rw [h1] at h
        cases h2 : dns2.records domain with
        | none => rfl
        | some pr =>
            rw [h2] at h
            exact absurd h (by simp)
    | some pr =>
        obtain ⟨a, r6⟩ := pr
        rw [h1] at h
        cases h2 : dns2.records domain with
        | none =>
            rw [h2] at h
            exact absurd h (by simp)
        | some pr2 =>
            obtain ⟨a2, r62⟩ := pr2
            rw [h2] at h
            have ha : a = a2 := by simpa using h
            subst ha
            rfl

/-- Witness for C10 at a name holding one AAAA record and no A record. -/
theorem claim_C10_ipv4_only_witness :
    verifyDomainDNS dnsV6Only "v6.example" = false :=
  (claim_C10_ipv4_only dnsV6Only dnsV6Only "v6.example" ["::1"]).1 (by decide)

/-- JS falsy-or on a present non-empty string keeps the string. -/
theorem jsOrDefault_some_ne {d : String} (e : String) (h : d ≠ "") :
    jsOrDefault (some d) e = d := by
  simp [jsOrDefault, h]

/-- A present non-empty string is truthy. -/
theorem jsTruthyStr_some_ne {d : String} (h : d ≠ "") :
    jsTruthyStr (some d) = true := by
  simp [jsTruthyStr, h]

/-- C1, amended: removing a project's routing config unlinks the per-slug
file — afterwards the file does not exist, every other path is untouched, and
the DELETE handler on an existing project leaves no file at the slug path; in
contrast the panel removal overwrites panel.yml with a comment-only
placeholder document. -/
theorem claim_C1_remove_unlinks (dynDir slug : String) (fs : FileSystem)
    (p : String) (db : ProjectDb) (id : String) (project : Project) :
    fsRead (removeProjectTraefikConfig dynDir slug fs) p =
      (if p = traefikConfigPath dynDir slug then none else fsRead fs p) ∧
    (List.find? (fun q => q.id = id) db = some project →
      fsRead (deleteProjectDomain dynDir db fs id).2.2
        (traefikConfigPath dynDir project.slug) = none) ∧
    fsRead (removePanelTraefikConfig dynDir fs) (dynDir ++ "/panel.yml") =
      some (FileContent.commentOnly
        "# SupaPanel Panel Routing\n# No custom domain configured - access via IP:3000\n") := by
  refine ⟨fsRead_fsUnlink fs (traefikConfigPath dynDir slug) p, ?_, ?_⟩
  · intro hfind
    unfold deleteProjectDomain
    rw [hfind]
    simp only [removeProjectTraefikConfig]
    rw [fsRead_fsUnlink]
    rw [if_pos rfl]
  · unfold removePanelTraefikConfig
    rw [fsRead_fsWrite]
    rw [if_pos rfl]

/-- Counterexample to C1 as stated: at a concrete state holding the routing
file for slug proja, removing the domains via the DELETE handler leaves no
file at that path at all, rather than a placeholder document. -/
theorem claim_C1_counterexample :
    fsRead (deleteProjectDomain "dyn" [projA]
        [(traefikConfigPath "dyn" "proja", FileContent.commentOnly "old")] "a").2.2
      (traefikConfigPath "dyn" "proja") = none := by decide

/-- Witness for C1 on concrete data via the amended theorem. -/
theorem claim_C1_remove_unlinks_witness :
    fsRead (deleteProjectDomain "dyn" [projB]
        [(traefikConfigPath "dyn" "projb", FileContent.commentOnly "old")] "b").2.2
      (traefikConfigPath "dyn" "projb") = none :=
  (claim_C1_remove_unlinks "dyn" "projb"
    [(traefikConfigPath "dyn" "projb", FileContent.commentOnly "old")]
    "" [projB] "b" projB).2.1 (by decide)

/-- C6, amended: every supplied non-empty domain string that fails the shared
regex is rejected with a format error (project API slot, project Studio slot,
and panel route alike) with no state change, and a matching string is never
format-rejected; the empty string, however, bypasses the format check by JS
falsiness: supplied alone it yields the missing-domain error, not a format
error. The sample strings of the claim are indeed non-matching. -/
theorem claim_C6_format_validation (dns : DnsState) (dynDir : String) (db : ProjectDb)
    (fs : FileSystem) (settings : PanelSettings) (id : String) (d g : String)
    (hne : d ≠ "") (hbad : domainRegexTest d = false) (hgood : domainRegexTest g = true) :
    (∀ sd : Option String,
      putProjectDomain dns dynDir db fs id (some d) sd =
        (PutResult.formatError "Invalid API domain format", db, fs)) ∧
    putProjectDomain dns dynDir db fs id none (some d) =
      (PutResult.formatError "Invalid Studio domain format", db, fs) ∧
    putPanelDomain dns dynDir settings fs (some d) =
      (PanelPutResult.formatError "Invalid domain format", settings, fs) ∧
    (∀ msg, (putProjectDomain dns dynDir db fs id (some g) none).1 ≠
      PutResult.formatError msg) ∧
    (∀ msg, (putPanelDomain dns dynDir settings fs (some g)).1 ≠
      PanelPutResult.formatError msg) ∧
    putProjectDomain dns dynDir db fs id (some "") none =
      (PutResult.missingDomains, db, fs) ∧
    domainRegexTest "not a domain" = false ∧
    domainRegexTest "-bad.com" = false := by
  have hg : g ≠ "" := domainRegexTest_ne_empty hgood
  refine ⟨?_, ?_, ?_, ?_, ?_, ?_, by decide, by decide⟩
  · intro sd
    simp [putProjectDomain, jsTruthyStr, jsOrDefault, hne, hbad]
  · simp [putProjectDomain, jsTruthyStr, jsOrDefault, hne, hbad]
  · simp [putPanelDomain, jsTruthyStr, jsOrDefault, hne, hbad]
  · intro msg
    simp only [putProjectDomain, jsTruthyStr_some_ne hg, jsOrDefault_some_ne _ hg, hgood,
      Bool.not_true, Bool.and_false, Bool.false_and, Bool.and_true, Bool.true_and,
      Bool.not_false, jsTruthyStr, Bool.false_eq_true, if_false]
    cases hf : List.find? (fun p => p.id = id) db with
    | none => simp [hg]
    | some project =>
        simp only []
        split_ifs <;> simp
  · intro msg
    simp [putPanelDomain, jsTruthyStr, jsOrDefault, hg, hgood]
  · simp [putProjectDomain, jsTruthyStr]

/-- Counterexample to C6 as stated: the empty string does not match the regex,
yet supplying it as API domain together with a valid Studio domain is not
rejected at all — the update succeeds and clears the API domain. -/
theorem claim_C6_counterexample :
    (putProjectDomain dnsNone "dyn" [projB] [] "b" (some "") (some "app.b.test")).1 =
      PutResult.success none false (some "app.b.test") false
        "Studio domain configured (DNS pending)" := by decide

/-- Witness for C6 at concrete rejected and accepted strings. -/
theorem claim_C6_format_validation_witness :
    putProjectDomain dnsNone "dyn" [] [] "b" (some "-bad.com") none =
      (PutResult.formatError "Invalid API domain format", [], []) ∧
    putPanelDomain dnsNone "dyn" [] [] (some "-bad.com") =
      (PanelPutResult.formatError "Invalid domain format", [], []) ∧
    putProjectDomain dnsNone "dyn" [] [] "b" (some "") none =
      (PutResult.missingDomains, [], []) := by
  have h := claim_C6_format_validation dnsNone "dyn" [] [] [] "b" "-bad.com" "ok.example"
    (by decide) (by decide) (by decide)
  exact ⟨h.1 none, h.2.2.1, h.2.2.2.2.2.1⟩

/-- C2, amended: the uniqueness check is per attribute — an update that sets a
project's API domain to a value some other project holds in its API-domain
attribute is rejected with the 409 conflict response (an outcome distinct by
constructor from the 400 format error), before any change to the database or
to the routing files; symmetrically for the Studio-domain attribute. A value
held by another project only in the other attribute is not rejected. -/
theorem claim_C2_same_attribute_conflict (dns : DnsState) (dynDir : String)
    (db : ProjectDb) (fs : FileSystem) (id : String) (d : String) (project : Project)
    (hd : domainRegexTest d = true)
    (hproj : List.find? (fun p => p.id = id) db = some project) :
    ((List.find? (fun p => p.domain = some d && p.id ≠ id) db).isSome = true →
      putProjectDomain dns dynDir db fs id (some d) none =
        (PutResult.conflict "API domain is already in use", db, fs)) ∧
    ((List.find? (fun p => p.studioDomain = some d && p.id ≠ id) db).isSome = true →
      putProjectDomain dns dynDir db fs id none (some d) =
        (PutResult.conflict "Studio domain is already in use", db, fs)) := by
  have hne : d ≠ "" := domainRegexTest_ne_empty hd
  constructor
  · intro hconf
    simp only [putProjectDomain, jsOrDefault_some_ne _ hne] at hconf ⊢
    simp [jsTruthyStr, jsOrDefault, hne, hd, hproj, hconf]
    simpa using hconf
  · intro hconf
    simp only [putProjectDomain, jsOrDefault_some_ne _ hne] at hconf ⊢
    simp [jsTruthyStr, jsOrDefault, hne, hd, hproj, hconf]
    simpa using hconf

/-- Counterexample to C2 as stated: project a holds shared.test in its
Studio-domain attribute; setting project b's API domain to shared.test is not
rejected — the handler returns success and changes both the database and the
routing files. -/
theorem claim_C2_counterexample :
    (putProjectDomain dnsNone "dyn" [projA, projB] [] "b" (some "shared.test") none).1 =
      PutResult.success (some "shared.test") false none false
        "API domain configured (DNS pending)" ∧
    (putProjectDomain dnsNone "dyn" [projA, projB] [] "b" (some "shared.test") none).2.1 ≠
      [projA, projB] ∧
    (putProjectDomain dnsNone "dyn" [projA, projB] [] "b" (some "shared.test") none).2.2 ≠
      ([] : FileSystem) := by decide

/-- Witness for C2: same-attribute conflicts on the fixture database. -/
theorem claim_C2_same_attribute_conflict_witness :
    putProjectDomain dnsNone "dyn" [projA, projB] [] "b" (some "api.a.test") none =
      (PutResult.conflict "API domain is already in use", [projA, projB], []) ∧
    putProjectDomain dnsNone "dyn" [projA, projB] [] "b" none (some "shared.test") =
      (PutResult.conflict "Studio domain is already in use", [projA, projB], []) := by
  have h1 := claim_C2_same_attribute_conflict dnsNone "dyn" [projA, projB] [] "b"
    "api.a.test" projB (by decide) (by decide)
  have h2 := claim_C2_same_attribute_conflict dnsNone "dyn" [projA, projB] [] "b"
    "shared.test" projB (by decide) (by decide)
  exact ⟨h1.1 (by decide), h2.2 (by decide)⟩

/-- C7: a valid, non-conflicting API domain whose DNS verification fails is
still persisted — the handler returns the 200 success response carrying the
saved domain with verified false and the DNS-pending message, the database row
holds the domain with its verified flag false, and the routing config is still
rendered and written. -/
theorem claim_C7_dns_pending_saves (dns : DnsState) (dynDir : String) (fs : FileSystem)
    (id slug : String) (pd : Option String) (pv : Bool) (psd : Option String) (psv : Bool)
    (envs : List (String × String)) (d : String)
    (hd : domainRegexTest d = true)
    (hdns : verifyDomainDNS dns d = false) :
    putProjectDomain dns dynDir [⟨id, slug, pd, pv, psd, psv, envs⟩] fs id (some d) none =
      (PutResult.success (some d) false psd psv "API domain configured (DNS pending)",
       [⟨id, slug, some d, false, psd, psv, envs⟩],
       generateProjectTraefikConfigFS dynDir
         { projectSlug := slug, domain := d,
           studioDomain := some (jsOrDefault psd ""),
           kongPort := (getProjectPorts envs).kongPort,
           studioPort := (getProjectPorts envs).studioPort } fs) := by
  have hne : d ≠ "" := domainRegexTest_ne_empty hd
  have hmsg : putMessage (some d) none false false = "API domain configured (DNS pending)" := by
    unfold putMessage
    rw [jsTruthyStr_some_ne hne]
    decide
  simp only [putProjectDomain, jsOrDefault_some_ne _ hne]
  simp [jsTruthyStr, jsOrDefault, jsOrOpt, hne, hd, hdns, hmsg, List.find?]

/-- Witness for C7 at a concrete project and an unresolvable domain. -/
theorem claim_C7_dns_pending_saves_witness :
    putProjectDomain dnsNone "dyn" [⟨"b", "projb", none, false, none, false, []⟩] []
        "b" (some "api.demo.test") none =
      (PutResult.success (some "api.demo.test") false none false
          "API domain configured (DNS pending)",
       [⟨"b", "projb", some "api.demo.test", false, none, false, []⟩],
       generateProjectTraefikConfigFS "dyn"
         { projectSlug := "projb", domain := "api.demo.test",
           studioDomain := some (jsOrDefault none ""),
           kongPort := (getProjectPorts []).kongPort,
           studioPort := (getProjectPorts []).studioPort } []) :=
  claim_C7_dns_pending_saves dnsNone "dyn" [] "b" "projb" none false none false []
    "api.demo.test" (by decide) (by decide)

/-- C3: when one of the two domains is already persisted and an update
supplies only the other, the handler renders with the merged set: the written
file holds the routers and service of the persisted domain alongside those of
the newly supplied one, in both directions (API persisted / Studio supplied,
and Studio persisted / API supplied). -/
theorem claim_C3_merged_render (dns : DnsState) (dynDir : String) (fs : FileSystem)
    (id slug : String) (envs : List (String × String)) (dOld dNew : String) (b1 b2 : Bool)
    (hold : dOld ≠ "") (hnew : domainRegexTest dNew = true) :
    fsRead (putProjectDomain dns dynDir [⟨id, slug, some dOld, b1, none, false, envs⟩]
          fs id none (some dNew)).2.2 (traefikConfigPath dynDir slug) =
      some (FileContent.document
        { routers :=
            [ ⟨slug ++ "-api", dOld, "websecure", slug ++ "-api", [], some "letsencrypt", 10⟩,
              ⟨slug ++ "-api-http", dOld, "web", slug ++ "-api", ["https-redirect"], none, 5⟩,
              ⟨slug ++ "-studio", dNew, "websecure", slug ++ "-studio", [],
                some "letsencrypt", 10⟩,
              ⟨slug ++ "-studio-http", dNew, "web", slug ++ "-studio", ["https-redirect"],
                none, 5⟩ ],
          middlewares := ["https-redirect"],
          services :=
            [ ⟨slug ++ "-api",
               "http://" ++ slug ++ "-kong:" ++
                 jsNumToString (getProjectPorts envs).kongPort, true⟩,
              ⟨slug ++ "-studio",
               "http://" ++ slug ++ "-studio:" ++
                 jsNumToString (getProjectPorts envs).studioPort, false⟩ ] }) ∧
    fsRead (putProjectDomain dns dynDir [⟨id, slug, none, false, some dOld, b2, envs⟩]
          fs id (some dNew) none).2.2 (traefikConfigPath dynDir slug) =
      some (FileContent.document
        { routers :=
            [ ⟨slug ++ "-api", dNew, "websecure", slug ++ "-api", [], some "letsencrypt", 10⟩,
              ⟨slug ++ "-api-http", dNew, "web", slug ++ "-api", ["https-redirect"], none, 5⟩,
              ⟨slug ++ "-studio", dOld, "websecure", slug ++ "-studio", [],
                some "letsencrypt", 10⟩,
              ⟨slug ++ "-studio-http", dOld, "web", slug ++ "-studio", ["https-redirect"],
                none, 5⟩ ],
          middlewares := ["https-redirect"],
          services :=
            [ ⟨slug ++ "-api",
               "http://" ++ slug ++ "-kong:" ++
                 jsNumToString (getProjectPorts envs).kongPort, true⟩,
              ⟨slug ++ "-studio",
               "http://" ++ slug ++ "-studio:" ++
                 jsNumToString (getProjectPorts envs).studioPort, false⟩ ] }) := by
  have hne2 : dNew ≠ "" := domainRegexTest_ne_empty hnew
  constructor
  · simp only [putProjectDomain, jsOrDefault_some_ne _ hne2]
    simp [jsTruthyStr, jsOrDefault, jsOrOpt, hold, hne2, hnew, List.find?,
      generateProjectTraefikConfigFS, generateProjectTraefikDocument, fsRead_fsWrite]
  · simp only [putProjectDomain, jsOrDefault_some_ne _ hne2]
    simp [jsTruthyStr, jsOrDefault, jsOrOpt, hold, hne2, hnew, List.find?,
      generateProjectTraefikConfigFS, generateProjectTraefikDocument, fsRead_fsWrite]

/-- Witness for C3: project with API domain set, update supplying only the
Studio domain; the written file keeps the API routers and service. -/
theorem claim_C3_merged_render_witness :
    fsRead (putProjectDomain dnsNone "dyn"
          [⟨"c", "projc", some "api.c.test", true, none, false, []⟩] [] "c" none
          (some "st.c.test")).2.2 (traefikConfigPath "dyn" "projc") =
      some (FileContent.document
        { routers :=
            [ ⟨"projc" ++ "-api", "api.c.test", "websecure", "projc" ++ "-api", [],
                some "letsencrypt", 10⟩,
              ⟨"projc" ++ "-api-http", "api.c.test", "web", "projc" ++ "-api",
                ["https-redirect"], none, 5⟩,
              ⟨"projc" ++ "-studio", "st.c.test", "websecure", "projc" ++ "-studio", [],
                some "letsencrypt", 10⟩,
              ⟨"projc" ++ "-studio-http", "st.c.test", "web", "projc" ++ "-studio",
                ["https-redirect"], none, 5⟩ ],
          middlewares := ["https-redirect"],
          services :=
            [ ⟨"projc" ++ "-api",
               "http://" ++ "projc" ++ "-kong:" ++
                 jsNumToString (getProjectPorts []).kongPort, true⟩,
              ⟨"projc" ++ "-studio",
               "http://" ++ "projc" ++ "-studio:" ++
                 jsNumToString (getProjectPorts []).studioPort, false⟩ ] }) :=
  (claim_C3_merged_render dnsNone "dyn" [] "c" "projc" [] "api.c.test" "st.c.test"
    true false (by decide) (by decide)).1

end SupaPanel

